import Mathlib

set_option linter.unusedVariables false

attribute [local semireducible] Rat.add Rat.sub Rat.mul Rat.inv

/-!
Shallow embedding of the deepchecks `ModelErrorAnalysis` check
(src/deepchecks/tabular/checks/performance/model_error_analysis.py) and of the
tabular default suites (src/deepchecks/tabular/suites/default_suites.py).

Floating-point scores are embedded as rationals; fallible Python code returns
`Except PyErr`.  Repository helpers that are not part of the given sources
(deepchecks.utils.*, deepchecks.tabular.Dataset, the check/suite base classes)
are modelled from the specification and are marked as such in their doc
comments.
-/

/-- Python exception kinds that the modelled code can raise. -/
inductive PyErr where
  | dataValidity
  | valueError
  | zeroDivision
deriving DecidableEq

/-- One reported segment of a feature: its performance score and its row count
(the `score`/`n_samples` fields of the per-segment mapping). -/
structure SegmentInfo where
  score : ℚ
  size : ℕ
deriving DecidableEq

/-- The per-feature entry of the `feature_segments` mapping: `segment1`, and
`segment2` when two distinguishable segments were found. -/
structure FeatureEntry where
  segment1 : SegmentInfo
  segment2 : Option SegmentInfo
deriving DecidableEq

/-- The check result value consumed by the condition: the scorer name and the
`feature_segments` mapping, in Python dict insertion order. -/
structure CheckValue where
  scorer_name : String
  feature_segments : List (String × FeatureEntry)
deriving DecidableEq

/-- Condition categories of deepchecks condition results. -/
inductive ConditionCategory where
  | PASS
  | FAIL
  | WARN
deriving DecidableEq

/-- A condition result: category plus message details. -/
structure ConditionResult where
  category : ConditionCategory
  details : String
deriving DecidableEq

/-- Modelled from the spec: `format_percent` (deepchecks.utils.strings, not under
src/) renders a ratio as a percentage string.  The model renders the exact
rational percentage followed by a percent sign. -/
def format_percent (r : ℚ) : String :=
  let p := r * 100
  (if p.den = 1 then toString p.num else toString p.num ++ "/" ++ toString p.den) ++ "%"

/-- The per-feature relative difference the condition code computes
(model_error_analysis.py lines 182-184):
`abs(score1 - score2) / abs(max(score1, score2))`. -/
def codeGap (s1 s2 : ℚ) : ℚ := |s1 - s2| / |max s1 s2|

/-- The relative gap as the specification words it:
`abs(score1 - score2) / max(abs(score1), abs(score2))`. -/
def specGap (s1 s2 : ℚ) : ℚ := |s1 - s2| / max |s1| |s2|

/-- The two-segment features of a `feature_segments` mapping with their two
segment scores, in mapping order. -/
def twoSegs : List (String × FeatureEntry) → List (String × (ℚ × ℚ))
  | [] => []
  | (f, e) :: rest =>
    match e.segment2 with
    | none => twoSegs rest
    | some s2 => (f, (e.segment1.score, s2.score)) :: twoSegs rest

/-- The `fails` dictionary built by the loop of `condition`
(model_error_analysis.py lines 176-186): iterate the features in mapping order,
skip features with fewer than two segments, compute the relative difference and
record it formatted; a zero denominator raises `ZeroDivisionError` exactly as
Python float division does. -/
def computeFails (t : ℚ) : List (String × FeatureEntry) → Except PyErr (List (String × String))
  | [] => .ok []
  | (f, e) :: rest =>
    match e.segment2 with
    | none => computeFails t rest
    | some s2 =>
      if |max e.segment1.score s2.score| = 0 then .error .zeroDivision
      else
        let d := |e.segment1.score - s2.score| / |max e.segment1.score s2.score|
        if t < d then
          match computeFails t rest with
          | .error err => .error err
          | .ok tail => .ok ((f, format_percent d) :: tail)
        else computeFails t rest

/-- A single Python quote character. -/
def pyQuote (s : String) : String :=
  String.singleton (Char.ofNat 39) ++ s ++ String.singleton (Char.ofNat 39)

/-- Python `str` of the sorted fails dict, i.e. the quoted pairs rendered
between braces. -/
def dictStr (l : List (String × String)) : String :=
  "\x7b" ++ String.intercalate ", " (l.map fun p => pyQuote p.1 ++ ": " ++ pyQuote p.2) ++ "\x7d"

/-- Lexicographic comparison of character lists by code point, as Python
compares strings. -/
def strLeAux : List Char → List Char → Bool
  | [], _ => true
  | _ :: _, [] => false
  | a :: as, b :: bs =>
    if a.toNat < b.toNat then true
    else if b.toNat < a.toNat then false
    else strLeAux as bs

/-- Python string comparison (lexicographic on code points). -/
def strLe (a b : String) : Bool := strLeAux a.data b.data

theorem strLeAux_total (a b : List Char) : strLeAux a b = true ∨ strLeAux b a = true := by
  induction a generalizing b with
  | nil => exact Or.inl rfl
  | cons x xs ih =>
    cases b with
    | nil => exact Or.inr rfl
    | cons y ys =>
      by_cases h1 : x.toNat < y.toNat
      · left
        simp [strLeAux, h1]
      · by_cases h2 : y.toNat < x.toNat
        · right
          simp [strLeAux, h2]
        · rcases ih ys with h | h
          · left
            simp [strLeAux, h1, h2, h]
          · right
            simp [strLeAux, h1, h2, h]

theorem strLeAux_trans (a b c : List Char) (h1 : strLeAux a b = true)
    (h2 : strLeAux b c = true) : strLeAux a c = true := by
  induction a generalizing b c with
  | nil => rfl
  | cons x xs ih =>
    cases b with
    | nil => simp [strLeAux] at h1
    | cons y ys =>
      cases c with
      | nil => simp [strLeAux] at h2
      | cons z zs =>
        simp only [strLeAux] at h1 h2 ⊢
        by_cases hxy : x.toNat < y.toNat
        · by_cases hyz : y.toNat < z.toNat
          · simp [Nat.lt_trans hxy hyz]
          · by_cases hzy : z.toNat < y.toNat
            · simp [hyz, hzy] at h2
            · have hxz : x.toNat < z.toNat := by omega
              simp [hxz]
        · by_cases hyx : y.toNat < x.toNat
          · simp [hxy, hyx] at h1
          · by_cases hyz : y.toNat < z.toNat
            · have hxz : x.toNat < z.toNat := by omega
              simp [hxz]
            · by_cases hzy : z.toNat < y.toNat
              · simp [hyz, hzy] at h2
              · have hxz : ¬ x.toNat < z.toNat := by omega
                have hzx : ¬ z.toNat < x.toNat := by omega
                simp only [if_neg hxy, if_neg hyx] at h1
                simp only [if_neg hyz, if_neg hzy] at h2
                simp only [if_neg hxz, if_neg hzx]
                exact ih ys zs h1 h2

/-- The order by which Python sorts `fails.items()` with
`key=lambda item: item[1]`: lexicographic comparison of the formatted percent
strings. -/
def failKeyLe (a b : String × String) : Prop := strLe a.2 b.2 = true

instance : DecidableRel failKeyLe :=
  fun a b => inferInstanceAs (Decidable (strLe a.2 b.2 = true))

instance : IsTotal (String × String) failKeyLe :=
  ⟨fun a b => strLeAux_total a.2.data b.2.data⟩

instance : IsTrans (String × String) failKeyLe :=
  ⟨fun a b c h1 h2 => strLeAux_trans a.2.data b.2.data c.2.data h1 h2⟩

/-- Python `sorted(fails.items(), key=lambda item: item[1])`
(model_error_analysis.py line 189): a stable ascending sort of the
(feature, formatted-percent) pairs by the formatted string. -/
def sortFailsByStr (l : List (String × String)) : List (String × String) :=
  List.insertionSort failKeyLe l

/-- The condition registered by
`add_condition_segments_performance_relative_difference_not_greater_than`
(model_error_analysis.py lines 175-193). -/
def condition (t : ℚ) (result : CheckValue) : Except PyErr ConditionResult :=
  match computeFails t result.feature_segments with
  | .error e => .error e
  | .ok fails =>
    if fails = [] then .ok ⟨ConditionCategory.PASS, ""⟩
    else
      .ok ⟨ConditionCategory.WARN,
        "Found change in " ++ result.scorer_name ++ " in features above threshold: " ++
          dictStr (sortFailsByStr fails)⟩

theorem computeFails_eq (t : ℚ) (l : List (String × FeatureEntry))
    (h : ∀ p ∈ twoSegs l, max p.2.1 p.2.2 ≠ 0) :
    computeFails t l =
      .ok (((twoSegs l).filter fun p => decide (t < codeGap p.2.1 p.2.2)).map
        fun p => (p.1, format_percent (codeGap p.2.1 p.2.2))) := by
  induction l with
  | nil => rfl
  | cons fe rest ih =>
    obtain ⟨f, e⟩ := fe
    cases he : e.segment2 with
    | none =>
      have hts : twoSegs ((f, e) :: rest) = twoSegs rest := by
        simp only [twoSegs, he]
      rw [hts] at h ⊢
      have : computeFails t ((f, e) :: rest) = computeFails t rest := by
        simp only [computeFails, he]
      rw [this]
      exact ih h
    | some s2 =>
      have hts : twoSegs ((f, e) :: rest) =
          (f, (e.segment1.score, s2.score)) :: twoSegs rest := by
        simp only [twoSegs, he]
      rw [hts] at h
      have hden : max e.segment1.score s2.score ≠ 0 := by
        have := h (f, (e.segment1.score, s2.score)) (List.mem_cons_self _ _)
        simpa using this
      have habs : ¬ (|max e.segment1.score s2.score| = 0) := by
        simpa [abs_eq_zero] using hden
      have hrest : ∀ p ∈ twoSegs rest, max p.2.1 p.2.2 ≠ 0 := by
        intro p hp
        exact h p (List.mem_cons_of_mem _ hp)
      have hcf : computeFails t ((f, e) :: rest) =
          (if t < |e.segment1.score - s2.score| / |max e.segment1.score s2.score| then
            match computeFails t rest with
            | .error err => .error err
            | .ok tail =>
                .ok ((f, format_percent
                  (|e.segment1.score - s2.score| / |max e.segment1.score s2.score|)) :: tail)
          else computeFails t rest) := by
        simp only [computeFails, he, if_neg habs]
      rw [hcf, ih hrest, hts]
      by_cases hgt : t < |e.segment1.score - s2.score| / |max e.segment1.score s2.score|
      · rw [if_pos hgt]
        have hdec : decide (t < codeGap e.segment1.score s2.score) = true := by
          simpa [codeGap] using hgt
        simp only [codeGap] at hdec
        simp [List.filter_cons, codeGap, hdec]
      · rw [if_neg hgt]
        have hdec : decide (t < codeGap e.segment1.score s2.score) = false := by
          simpa [codeGap] using hgt
        simp only [codeGap] at hdec
        simp [List.filter_cons, codeGap, hdec]

theorem condition_eq_of_ok (t : ℚ) (r : CheckValue) (fails : List (String × String))
    (h : computeFails t r.feature_segments = .ok fails) :
    condition t r =
      if fails = [] then .ok ⟨ConditionCategory.PASS, ""⟩
      else .ok ⟨ConditionCategory.WARN,
        "Found change in " ++ r.scorer_name ++ " in features above threshold: " ++
          dictStr (sortFailsByStr fails)⟩ := by
  unfold condition
  rw [h]

/-- C1 counterexample input: a single feature whose two segment scores are -3
and -5 (negative scores arise from sklearn scorers such as negated RMSE). -/
def rGapNeg : CheckValue := ⟨"Accuracy", [("f", ⟨⟨-3, 10⟩, some ⟨-5, 10⟩⟩)]⟩

/-- C1 counterexample: with segment scores -3 and -5 and threshold 1/2 the
formula claimed by the spec gives gap 2/5 ≤ 1/2, so no feature should be
collected and the condition should pass; the code instead divides by
abs(max(-3, -5)) = 3, gets 2/3 > 1/2, collects the feature and returns WARN. -/
theorem c1_counterexample :
    specGap (-3) (-5) ≤ 1/2 ∧
    (computeFails (1/2) rGapNeg.feature_segments).map (List.map Prod.fst) = .ok ["f"] ∧
    Except.map ConditionResult.category (condition (1/2) rGapNeg) = .ok ConditionCategory.WARN := by
  refine ⟨by decide, by rfl, by rfl⟩

/-- C1 (amended): for every check-result mapping all of whose two-segment
features have max(score1, score2) ≠ 0, the condition computes the relative gap
as abs(score1 - score2) / abs(max(score1, score2)), collects into the failure
report exactly the features whose gap exceeds the threshold, and returns a
passing condition result exactly when no feature's gap exceeds it. -/
theorem c1_condition_flags_exactly_above_threshold (t : ℚ) (r : CheckValue)
    (h : ∀ p ∈ twoSegs r.feature_segments, max p.2.1 p.2.2 ≠ 0) :
    computeFails t r.feature_segments =
      .ok (((twoSegs r.feature_segments).filter fun p => decide (t < codeGap p.2.1 p.2.2)).map
        fun p => (p.1, format_percent (codeGap p.2.1 p.2.2))) ∧
    (condition t r = .ok ⟨ConditionCategory.PASS, ""⟩ ↔
      ∀ p ∈ twoSegs r.feature_segments, codeGap p.2.1 p.2.2 ≤ t) := by
  have hcf := computeFails_eq t r.feature_segments h
  refine ⟨hcf, ?_⟩
  rw [condition_eq_of_ok t r _ hcf]
  constructor
  · intro hpass
    intro p hp
    by_contra hlt
    push_neg at hlt
    have hmem : p ∈ (twoSegs r.feature_segments).filter
        (fun q => decide (t < codeGap q.2.1 q.2.2)) := by
      rw [List.mem_filter]
      exact ⟨hp, by simpa using hlt⟩
    have hne : ((twoSegs r.feature_segments).filter
        (fun q => decide (t < codeGap q.2.1 q.2.2))).map
          (fun q => (q.1, format_percent (codeGap q.2.1 q.2.2))) ≠ [] := by
      intro hnil
      rw [List.map_eq_nil_iff] at hnil
      rw [hnil] at hmem
      exact (List.not_mem_nil p) hmem
    rw [if_neg hne] at hpass
    have hcat := congrArg (fun x => match x with
      | Except.ok cr => cr.category
      | Except.error _ => ConditionCategory.WARN) hpass
    simp at hcat
  · intro hall
    have hfil : (twoSegs r.feature_segments).filter
        (fun q => decide (t < codeGap q.2.1 q.2.2)) = [] := by
      rw [List.filter_eq_nil_iff]
      intro p hp
      simpa using hall p hp
    rw [hfil]
    simp

/-- C1 witness input: one feature with scores 10 and 9, gap 1/10. -/
def rGapPass : CheckValue := ⟨"Accuracy", [("g", ⟨⟨10, 5⟩, some ⟨9, 5⟩⟩)]⟩

theorem c1_witness :
    condition (1/2) rGapPass = .ok ⟨ConditionCategory.PASS, ""⟩ :=
  (c1_condition_flags_exactly_above_threshold (1/2) rGapPass (by decide)).2.mpr (by decide)

/-- C2 counterexample input: feature a with gap 11/100, feature b with gap
9/100, both above the 1/20 threshold. -/
def rLexOrder : CheckValue :=
  ⟨"Accuracy",
   [("a", ⟨⟨100, 5⟩, some ⟨89, 5⟩⟩),
    ("b", ⟨⟨100, 5⟩, some ⟨91, 5⟩⟩)]⟩

/-- C2 counterexample: the failure report is sorted by the formatted percent
string, and the string "11%" sorts before "9%"; the report therefore lists
feature a (numeric gap 11/100) before feature b (numeric gap 9/100) although
b's gap is smaller, so the order is not ascending by numeric gap value. -/
theorem c2_counterexample :
    computeFails (1/20) rLexOrder.feature_segments = .ok [("a", "11%"), ("b", "9%")] ∧
    sortFailsByStr [("a", "11%"), ("b", "9%")] = [("a", "11%"), ("b", "9%")] ∧
    condition (1/20) rLexOrder = .ok ⟨ConditionCategory.WARN,
      "Found change in Accuracy in features above threshold: " ++
        dictStr [("a", "11%"), ("b", "9%")]⟩ ∧
    codeGap 100 91 < codeGap 100 89 := by
  refine ⟨by rfl, by rfl, by rfl, by decide⟩

/-- C2 (amended): whenever the condition fails, its message renders the
collected fails sorted ascending by the formatted percent string (Python sorts
`fails.items()` by `item[1]`, a string); the reported list is a permutation of
the collected fails sorted by that string order, not by numeric gap. -/
theorem c2_fails_sorted_by_formatted_string (t : ℚ) (r : CheckValue)
    (fails : List (String × String))
    (h : computeFails t r.feature_segments = .ok fails) (hne : fails ≠ []) :
    condition t r = .ok ⟨ConditionCategory.WARN,
      "Found change in " ++ r.scorer_name ++ " in features above threshold: " ++
        dictStr (sortFailsByStr fails)⟩ ∧
    (sortFailsByStr fails).Pairwise failKeyLe ∧
    (sortFailsByStr fails).Perm fails := by
  refine ⟨?_, List.sorted_insertionSort failKeyLe fails, List.perm_insertionSort failKeyLe fails⟩
  rw [condition_eq_of_ok t r fails h, if_neg hne]

theorem c2_witness :
    condition (1/20) rLexOrder = .ok ⟨ConditionCategory.WARN,
      "Found change in " ++ rLexOrder.scorer_name ++ " in features above threshold: " ++
        dictStr (sortFailsByStr [("a", "11%"), ("b", "9%")])⟩ ∧
    (sortFailsByStr [("a", "11%"), ("b", "9%")]).Pairwise failKeyLe ∧
    (sortFailsByStr [("a", "11%"), ("b", "9%")]).Perm [("a", "11%"), ("b", "9%")] :=
  c2_fails_sorted_by_formatted_string (1/20) rLexOrder [("a", "11%"), ("b", "9%")]
    (by rfl) (by decide)

/-- C9 input: a feature whose greater segment score is zero. -/
def rZeroDen : CheckValue := ⟨"Accuracy", [("h", ⟨⟨0, 5⟩, some ⟨-1, 5⟩⟩)]⟩

/-- C9: the division inside the condition is unguarded: with segment scores 0
and -1 the denominator abs(max(0, -1)) is zero, and evaluating the condition
raises ZeroDivisionError instead of returning a condition result. -/
theorem c9_unguarded_division :
    max (0 : ℚ) (-1) = 0 ∧ condition (1/20) rZeroDen = .error PyErr.zeroDivision := by
  refine ⟨by decide, by rfl⟩

/-- A row of a tabular dataset: feature values in feature order, and an
optional label value (`none` models a missing/NaN label). -/
structure DRow where
  feats : List ℚ
  label : Option ℚ
deriving DecidableEq

/-- Modelled from the spec: the tabular `Dataset` handle consumed from
`Context` (deepchecks.tabular.Dataset is not under src/): ordered rows,
declared feature names, the declared categorical features, and whether a label
column exists at all. -/
structure Dataset where
  featureNames : List String
  catFeatures : List String
  hasLabel : Bool
  rows : List DRow
deriving DecidableEq

/-- Modelled from the spec: `Dataset.assert_label` raises a data-validity
error when the dataset has no label column. -/
def Dataset.assert_label (ds : Dataset) : Except PyErr Unit :=
  if ds.hasLabel then .ok () else .error .dataValidity

/-- Modelled from the spec: `Dataset.sample(n, random_state, drop_na_label)`
returns a read-only sampled view: rows with missing labels are dropped when
requested and at most `n` rows are kept; the selection is a deterministic
function of the dataset, `n` and the seed (the concrete pseudo-random choice
is abstracted to a prefix of the filtered rows). -/
def Dataset.sample (ds : Dataset) (n : Nat) (randomState : Nat) (dropNaLabel : Bool) : Dataset :=
  let kept := if dropNaLabel then ds.rows.filter (fun r => r.label.isSome) else ds.rows
  ⟨ds.featureNames, ds.catFeatures, ds.hasLabel, kept.take n⟩

/-- The label column of a dataset whose rows all carry labels (after sampling
with `drop_na_label=True`); a missing label is read as 0 only in cases the
pipeline never reaches. -/
def Dataset.label_col (ds : Dataset) : List ℚ := ds.rows.map (fun r => r.label.getD 0)

/-- The feature matrix of the dataset, row by row. -/
def Dataset.features_columns (ds : Dataset) : List (List ℚ) := ds.rows.map DRow.feats

/-- Descending comparison by the rational second component, used to rank
features by importance and rows by predicted error. -/
def sndGe {α : Type} (a b : α × ℚ) : Prop := b.2 ≤ a.2

instance {α : Type} : DecidableRel (sndGe (α := α)) :=
  fun a b => inferInstanceAs (Decidable (b.2 ≤ a.2))

instance {α : Type} : IsTotal (α × ℚ) sndGe := ⟨fun a b => le_total b.2 a.2⟩

instance {α : Type} : IsTrans (α × ℚ) sndGe := ⟨fun a b c h1 h2 => le_trans h2 h1⟩

/-- Modelled from the spec: `Dataset.classes` is the sorted list of distinct
observed label values of the label-carrying rows (the training label space). -/
def Dataset.classes (ds : Dataset) : List ℚ :=
  (List.insertionSort (fun a b : ℚ => a ≤ b) (ds.rows.filterMap DRow.label)).dedup

/-- The user's model as consumed from `Context`: per-row point prediction and
per-row class-probability prediction.  Never mutated by the check. -/
structure MLModel where
  predictRow : List ℚ → ℚ
  predictProbaRow : List ℚ → List ℚ

/-- Task types distinguished by the check. -/
inductive TaskType where
  | REGRESSION
  | BINARY
  | MULTICLASS
deriving DecidableEq

/-- A scorer: a function of (model, rows) producing one score, in the sklearn
convention `(model, X, y) -> float` with X and y carried by the rows. -/
def ScorerFn : Type := MLModel → List DRow → ℚ

/-- What `__init__` stores in `self.user_scorer` after
`dict([alternative_scorer])`: either a proper one-entry name-to-scorer
mapping, or the nonsense one-entry dict `{(n1, f1): (n2, f2)}` that Python
builds when a sequence of exactly two pairs is supplied. -/
inductive UserScorerStore where
  | mapping (entries : List (String × ScorerFn))
  | pairKeyed (k v : String × ScorerFn)

/-- The configuration stored on a `ModelErrorAnalysis` instance by `__init__`
(model_error_analysis.py lines 85-105). -/
structure MEAConfig where
  maxFeaturesToShow : Nat
  minFeatureContribution : ℚ
  minErrorModelScore : ℚ
  minSegmentSize : ℚ
  userScorer : Option UserScorerStore
  nSamples : Nat
  nDisplaySamples : Nat
  randomState : Nat

/-- The input `run_logic` hands to the external error-model fitting
procedure. -/
structure FitInput where
  trainX : List (List ℚ)
  trainScores : List ℚ
  testX : List (List ℚ)
  testScores : List ℚ
  numericFeatures : List String
  catFeatures : List String
  randomState : Nat

/-- Result of the external fit: per-feature importances, held-out predictions
of the error model, and the held-out goodness-of-fit score. -/
structure FitResult where
  importances : List (String × ℚ)
  predictions : List ℚ
  score : ℚ

/-- The `Context` collaborator: train/test handles, task type, model, the
scorer resolution service `get_single_scorer`, the error-model fitting
procedure (the sklearn pipeline behind `model_error_contribution`, modelled
per the spec as a deterministic function of its input including the seed), and
the negated logarithm used by the cross-entropy (abstracted because the code
computes it in floating point). -/
structure Context where
  train : Dataset
  test : Dataset
  taskType : TaskType
  model : MLModel
  scorerOf : Option UserScorerStore → String × ScorerFn
  errorModelFit : FitInput → FitResult
  negLog : ℚ → ℚ

/-- Modelled from the spec: `per_sample_mse`
(deepchecks.utils.single_sample_metrics, not under src/): the per-sample
squared error between label and prediction. -/
def per_sample_mse (labels preds : List ℚ) : List ℚ :=
  List.zipWith (fun y yhat => (y - yhat) ^ 2) labels preds

/-- Modelled from the spec: `per_sample_cross_entropy`
(deepchecks.utils.single_sample_metrics, not under src/): per sample, the
negated log of the probability the model assigns to the true (encoded) class. -/
def per_sample_cross_entropy (negLog : ℚ → ℚ) (enc : List Nat)
    (probas : List (List ℚ)) : List ℚ :=
  List.zipWith (fun c p => negLog (p.getD c 0)) enc probas

/-- Models sklearn `preprocessing.LabelEncoder` fitted on `classes`: each
label maps to its index in the sorted class list; an unseen label raises
ValueError. -/
def leTransform (classes : List ℚ) : List ℚ → Except PyErr (List Nat)
  | [] => .ok []
  | y :: ys =>
    if y ∈ classes then
      match leTransform classes ys with
      | .error e => .error e
      | .ok tail => .ok (classes.indexOf y :: tail)
    else .error .valueError

/-- The `scoring_func` defined inside `run_logic` (model_error_analysis.py
lines 120-130): squared error against `model.predict` for regression,
otherwise cross-entropy of the label encoded against the sampled train
dataset's classes versus `model.predict_proba`. -/
def scoring_func (ctx : Context) (sampledTrain : Dataset) (ds : Dataset) :
    Except PyErr (List ℚ) :=
  if ctx.taskType = .REGRESSION then
    .ok (per_sample_mse ds.label_col (ds.features_columns.map ctx.model.predictRow))
  else
    match leTransform sampledTrain.classes ds.label_col with
    | .error e => .error e
    | .ok enc =>
        .ok (per_sample_cross_entropy ctx.negLog enc
          (ds.features_columns.map ctx.model.predictProbaRow))

/-- Modelled from the spec: `model_error_contribution`
(deepchecks.utils.performance.error_model, not under src/): fit the error
model through the external procedure; when the held-out fit score is below
`min_error_model_score`, contribution reporting is suppressed (empty
importances) without failing. -/
def model_error_contribution (fit : FitInput → FitResult) (inp : FitInput)
    (minErrorModelScore : ℚ) : List (String × ℚ) × List ℚ :=
  let r := fit inp
  if r.score < minErrorModelScore then ([], r.predictions)
  else (r.importances, r.predictions)

/-- Modelled from the spec: the per-feature segment construction inside
`error_model_display`: partition the held-out rows into a
high-predicted-error segment and a low-predicted-error segment; two segments
are reported only when each holds at least a `min_segment_size` fraction of
the rows, otherwise a single segment covers the data.  The chosen scorer is
evaluated on each segment. -/
def buildEntry (ds : Dataset) (model : MLModel) (scorerFn : ScorerFn)
    (minSegmentSize : ℚ) (preds : List ℚ) : FeatureEntry :=
  let paired := ds.rows.zip preds
  let sortedRows := List.insertionSort sndGe paired
  let m := paired.length
  let k := m / 2
  let hi := (sortedRows.take k).map Prod.fst
  let lo := (sortedRows.drop k).map Prod.fst
  if minSegmentSize * (ds.rows.length : ℚ) ≤ (k : ℚ) ∧
      minSegmentSize * (ds.rows.length : ℚ) ≤ ((m - k : ℕ) : ℚ) then
    ⟨⟨scorerFn model hi, hi.length⟩, some ⟨scorerFn model lo, lo.length⟩⟩
  else
    ⟨⟨scorerFn model ds.rows, ds.rows.length⟩, none⟩

/-- Modelled from the spec: `error_model_display`
(deepchecks.utils.performance.error_model, not under src/): select up to
`max_features_to_show` features whose importance exceeds
`min_feature_contribution`, ranked descending by importance; emit one display
block per selected feature, and the value mapping consumed by the condition
(`scorer_name` plus `feature_segments`).  Display sub-sampling to
`n_display_samples` only affects the plots and is abstracted away. -/
def error_model_display (fi : List (String × ℚ)) (preds : List ℚ) (ds : Dataset)
    (model : MLModel) (scorer : String × ScorerFn) (maxFeaturesToShow : Nat)
    (minFeatureContribution : ℚ) (minSegmentSize : ℚ) :
    List String × CheckValue :=
  let selected := (List.insertionSort sndGe
    (fi.filter fun p => decide (minFeatureContribution < p.2))).take maxFeaturesToShow
  let entries := selected.map fun p => (p.1, buildEntry ds model scorer.2 minSegmentSize preds)
  (selected.map fun p => "error distribution of " ++ p.1, ⟨scorer.1, entries⟩)

/-- A check result: the value mapping and the optional display blocks. -/
structure CheckResult where
  value : CheckValue
  display : Option (List String)
deriving DecidableEq

/-- The data produced by lines 109-133 of `run_logic`: label assertion,
sampling with missing-label dropping, and per-sample scoring of both sampled
datasets. -/
structure PreparedData where
  sTrain : Dataset
  sTest : Dataset
  trainScores : List ℚ
  testScores : List ℚ
deriving DecidableEq

/-- Lines 109-133 of `run_logic`. -/
def preparedData (cfg : MEAConfig) (ctx : Context) : Except PyErr PreparedData :=
  match ctx.train.assert_label with
  | .error e => .error e
  | .ok _ =>
    let sTrain := ctx.train.sample cfg.nSamples cfg.randomState true
    let sTest := ctx.test.sample cfg.nSamples cfg.randomState true
    match scoring_func ctx sTrain sTrain with
    | .error e => .error e
    | .ok trainScores =>
      match scoring_func ctx sTrain sTest with
      | .error e => .error e
      | .ok testScores => .ok ⟨sTrain, sTest, trainScores, testScores⟩

/-- The input `run_logic` hands to `model_error_contribution`
(model_error_analysis.py lines 135-145): feature matrices, per-sample scores,
the categorical/numeric feature split of the sampled train dataset, and the
seed. -/
def fitInputOf (cfg : MEAConfig) (ctx : Context) (pd : PreparedData) : FitInput :=
  ⟨pd.sTrain.features_columns, pd.trainScores, pd.sTest.features_columns, pd.testScores,
    pd.sTrain.featureNames.filter (fun f => f ∉ pd.sTrain.catFeatures),
    pd.sTrain.catFeatures, cfg.randomState⟩

/-- The headnote emitted above the display blocks
(model_error_analysis.py lines 158-161). -/
def headnote : String :=
  "<span> The following graphs show the distribution of error for top features that are most useful for distinguishing high error samples from low error samples. </span>"

/-- `ModelErrorAnalysis.run_logic` (model_error_analysis.py lines 107-164). -/
def run_logic (cfg : MEAConfig) (ctx : Context) : Except PyErr CheckResult :=
  match preparedData cfg ctx with
  | .error e => .error e
  | .ok pd =>
    let scorer := ctx.scorerOf cfg.userScorer
    let fiPred := model_error_contribution ctx.errorModelFit (fitInputOf cfg ctx pd)
      cfg.minErrorModelScore
    let dv := error_model_display fiPred.1 fiPred.2 pd.sTest ctx.model scorer
      cfg.maxFeaturesToShow cfg.minFeatureContribution cfg.minSegmentSize
    .ok ⟨dv.2, if dv.1 = [] then none else some (headnote :: dv.1)⟩

theorem run_logic_eq_of_prepared (cfg : MEAConfig) (ctx : Context) (pd : PreparedData)
    (h : preparedData cfg ctx = .ok pd) :
    run_logic cfg ctx =
      (let scorer := ctx.scorerOf cfg.userScorer
       let fiPred := model_error_contribution ctx.errorModelFit (fitInputOf cfg ctx pd)
         cfg.minErrorModelScore
       let dv := error_model_display fiPred.1 fiPred.2 pd.sTest ctx.model scorer
         cfg.maxFeaturesToShow cfg.minFeatureContribution cfg.minSegmentSize
       .ok ⟨dv.2, if dv.1 = [] then none else some (headnote :: dv.1)⟩) := by
  unfold run_logic
  rw [h]

theorem preparedData_inv (cfg : MEAConfig) (ctx : Context) (pd : PreparedData)
    (h : preparedData cfg ctx = .ok pd) :
    pd.sTrain = ctx.train.sample cfg.nSamples cfg.randomState true ∧
    pd.sTest = ctx.test.sample cfg.nSamples cfg.randomState true ∧
    scoring_func ctx (ctx.train.sample cfg.nSamples cfg.randomState true)
      (ctx.train.sample cfg.nSamples cfg.randomState true) = .ok pd.trainScores ∧
    scoring_func ctx (ctx.train.sample cfg.nSamples cfg.randomState true)
      (ctx.test.sample cfg.nSamples cfg.randomState true) = .ok pd.testScores := by
  unfold preparedData at h
  split at h
  · exact absurd h (by simp)
  · dsimp only at h
    split at h
    · exact absurd h (by simp)
    · split at h
      · exact absurd h (by simp)
      · injection h with h'
        rw [← h']
        refine ⟨rfl, rfl, ?_, ?_⟩
        · assumption
        · assumption

/-- C3: whenever the held-out fit score of the error-contribution model is
below `min_error_model_score`, the check still returns a CheckResult (it does
not fail); its display is None, while the value mapping is still available
programmatically and carries the scorer name (with empty feature segments). -/
theorem c3_low_fit_suppresses_display (cfg : MEAConfig) (ctx : Context) (pd : PreparedData)
    (hpd : preparedData cfg ctx = .ok pd)
    (hs : (ctx.errorModelFit (fitInputOf cfg ctx pd)).score < cfg.minErrorModelScore) :
    run_logic cfg ctx = .ok ⟨⟨(ctx.scorerOf cfg.userScorer).1, []⟩, none⟩ := by
  rw [run_logic_eq_of_prepared cfg ctx pd hpd]
  simp only [model_error_contribution, if_pos hs, error_model_display]
  simp

/-- C3 witness inputs: a tiny regression run whose error-model fit scores 0,
below the 1/2 threshold. -/
def cfgLow : MEAConfig := ⟨3, 3/20, 1/2, 1/20, none, 50000, 5000, 42⟩

def ctxLow : Context :=
  ⟨⟨["x"], [], true, [⟨[0], some 0⟩]⟩,
   ⟨["x"], [], true, [⟨[1], some 1⟩]⟩,
   .REGRESSION,
   ⟨fun _ => 0, fun _ => [1]⟩,
   fun _ => ("RMSE", fun _ _ => 0),
   fun _ => ⟨[("x", 1)], [0], 0⟩,
   fun q => q⟩

def pdLow : PreparedData :=
  ⟨⟨["x"], [], true, [⟨[0], some 0⟩]⟩, ⟨["x"], [], true, [⟨[1], some 1⟩]⟩, [0], [1]⟩

theorem c3_witness :
    run_logic cfgLow ctxLow = .ok ⟨⟨(ctxLow.scorerOf cfgLow.userScorer).1, []⟩, none⟩ :=
  c3_low_fit_suppresses_display cfgLow ctxLow pdLow (by rfl) (by decide)

/-- C4: a successful run of the per-sample scoring function yields squared
errors between label and `model.predict` output when the task type is
REGRESSION, and otherwise the per-sample cross-entropy between the true class
encoded against the (sampled) train dataset's classes and the
`model.predict_proba` class-probability vector. -/
theorem c4_scoring (ctx : Context) (sampledTrain ds : Dataset) (scores : List ℚ)
    (h : scoring_func ctx sampledTrain ds = .ok scores) :
    (ctx.taskType = .REGRESSION →
      scores = List.zipWith (fun y yhat => (y - yhat) ^ 2) ds.label_col
        (ds.features_columns.map ctx.model.predictRow)) ∧
    (ctx.taskType ≠ .REGRESSION →
      ∃ enc, leTransform sampledTrain.classes ds.label_col = .ok enc ∧
        scores = List.zipWith (fun c p => ctx.negLog (p.getD c 0)) enc
          (ds.features_columns.map ctx.model.predictProbaRow)) := by
  unfold scoring_func at h
  by_cases hty : ctx.taskType = .REGRESSION
  · rw [if_pos hty] at h
    injection h with h'
    exact ⟨fun _ => h'.symm, fun hne => absurd hty hne⟩
  · rw [if_neg hty] at h
    refine ⟨fun he => absurd he hty, fun _ => ?_⟩
    split at h
    · exact absurd h (by simp)
    · rename_i enc henc
      injection h with h'
      exact ⟨enc, henc, h'.symm⟩

/-- C4 witness inputs: a three-row classification train set with classes
3 and 5 and a two-row scored set. -/
def trainCls : Dataset := ⟨["x"], [], true, [⟨[0], some 5⟩, ⟨[1], some 3⟩, ⟨[2], some 3⟩]⟩

def dsCls : Dataset := ⟨["x"], [], true, [⟨[0], some 5⟩, ⟨[1], some 3⟩]⟩

def ctxCls : Context :=
  ⟨trainCls, dsCls, .MULTICLASS,
   ⟨fun _ => 0, fun _ => [1/2, 1/2]⟩,
   fun _ => ("Accuracy", fun _ _ => 0),
   fun _ => ⟨[], [], 1⟩,
   fun q => 1 - q⟩

theorem c4_witness :
    (ctxCls.taskType = .REGRESSION →
      [1/2, 1/2] = List.zipWith (fun y yhat => (y - yhat) ^ 2) dsCls.label_col
        (dsCls.features_columns.map ctxCls.model.predictRow)) ∧
    (ctxCls.taskType ≠ .REGRESSION →
      ∃ enc, leTransform trainCls.classes dsCls.label_col = .ok enc ∧
        [1/2, 1/2] = List.zipWith (fun c p => ctxCls.negLog (p.getD c 0)) enc
          (dsCls.features_columns.map ctxCls.model.predictProbaRow)) :=
  c4_scoring ctxCls trainCls dsCls [1/2, 1/2] (by rfl)

/-- C5: when the train dataset's labels are entirely absent, `run_logic`
raises the data-validity error of `assert_label` before any scoring; when the
pipeline proceeds, the sampled datasets are exactly the label-carrying rows
(rows with missing label values are silently dropped, not an error). -/
theorem c5_label_handling (cfg : MEAConfig) (ctx : Context) :
    (ctx.train.hasLabel = false → run_logic cfg ctx = .error PyErr.dataValidity) ∧
    (∀ pd, preparedData cfg ctx = .ok pd →
      pd.sTrain.rows = (ctx.train.rows.filter fun r => r.label.isSome).take cfg.nSamples ∧
      pd.sTest.rows = (ctx.test.rows.filter fun r => r.label.isSome).take cfg.nSamples ∧
      (∀ r ∈ pd.sTrain.rows, r.label.isSome = true) ∧
      (∀ r ∈ pd.sTest.rows, r.label.isSome = true)) := by
  constructor
  · intro h
    unfold run_logic preparedData Dataset.assert_label
    rw [h]
    simp
  · intro pd hpd
    obtain ⟨h1, h2, _, _⟩ := preparedData_inv cfg ctx pd hpd
    have e1 : pd.sTrain.rows = (ctx.train.rows.filter fun r => r.label.isSome).take cfg.nSamples := by
      rw [h1]
      rfl
    have e2 : pd.sTest.rows = (ctx.test.rows.filter fun r => r.label.isSome).take cfg.nSamples := by
      rw [h2]
      rfl
    refine ⟨e1, e2, ?_, ?_⟩
    · intro r hr
      rw [e1] at hr
      have := List.mem_of_mem_take hr
      exact (List.mem_filter.mp this).2
    · intro r hr
      rw [e2] at hr
      have := List.mem_of_mem_take hr
      exact (List.mem_filter.mp this).2

/-- C5 witness inputs. -/
def cfgDef : MEAConfig := ⟨3, 3/20, 1/2, 1/20, none, 50000, 5000, 42⟩

def ctxNoLabel : Context :=
  ⟨⟨["x"], [], false, [⟨[0], some 0⟩]⟩,
   ⟨["x"], [], true, []⟩,
   .REGRESSION,
   ⟨fun _ => 0, fun _ => []⟩,
   fun _ => ("s", fun _ _ => 0),
   fun _ => ⟨[], [], 0⟩,
   fun q => q⟩

def ctxDrop : Context :=
  ⟨⟨["x"], [], true, [⟨[0], some 0⟩, ⟨[1], none⟩]⟩,
   ⟨["x"], [], true, [⟨[2], some 4⟩]⟩,
   .REGRESSION,
   ⟨fun _ => 0, fun _ => []⟩,
   fun _ => ("s", fun _ _ => 0),
   fun _ => ⟨[], [], 0⟩,
   fun q => q⟩

def pdDrop : PreparedData :=
  ⟨⟨["x"], [], true, [⟨[0], some 0⟩]⟩, ⟨["x"], [], true, [⟨[2], some 4⟩]⟩, [0], [16]⟩

theorem c5_witness :
    run_logic cfgDef ctxNoLabel = .error PyErr.dataValidity ∧
    (pdDrop.sTrain.rows = (ctxDrop.train.rows.filter fun r => r.label.isSome).take cfgDef.nSamples ∧
     pdDrop.sTest.rows = (ctxDrop.test.rows.filter fun r => r.label.isSome).take cfgDef.nSamples ∧
     (∀ r ∈ pdDrop.sTrain.rows, r.label.isSome = true) ∧
     (∀ r ∈ pdDrop.sTest.rows, r.label.isSome = true)) :=
  ⟨(c5_label_handling cfgDef ctxNoLabel).1 (by rfl),
   (c5_label_handling cfgDef ctxDrop).2 pdDrop (by rfl)⟩

theorem buildEntry_sizes (ds : Dataset) (model : MLModel) (scorerFn : ScorerFn)
    (minSS : ℚ) (preds : List ℚ) (s2 : SegmentInfo)
    (h2 : (buildEntry ds model scorerFn minSS preds).segment2 = some s2) :
    minSS * (ds.rows.length : ℚ) ≤ ((buildEntry ds model scorerFn minSS preds).segment1.size : ℚ) ∧
    minSS * (ds.rows.length : ℚ) ≤ ((s2.size : ℕ) : ℚ) := by
  by_cases hcond : minSS * (ds.rows.length : ℚ) ≤ (((ds.rows.zip preds).length / 2 : ℕ) : ℚ) ∧
      minSS * (ds.rows.length : ℚ) ≤
        (((ds.rows.zip preds).length - (ds.rows.zip preds).length / 2 : ℕ) : ℚ)
  · have hbe : buildEntry ds model scorerFn minSS preds =
        ⟨⟨scorerFn model (((List.insertionSort sndGe (ds.rows.zip preds)).take
            ((ds.rows.zip preds).length / 2)).map Prod.fst),
          (((List.insertionSort sndGe (ds.rows.zip preds)).take
            ((ds.rows.zip preds).length / 2)).map Prod.fst).length⟩,
         some ⟨scorerFn model (((List.insertionSort sndGe (ds.rows.zip preds)).drop
            ((ds.rows.zip preds).length / 2)).map Prod.fst),
          (((List.insertionSort sndGe (ds.rows.zip preds)).drop
            ((ds.rows.zip preds).length / 2)).map Prod.fst).length⟩⟩ := by
      simp only [buildEntry]
      rw [if_pos hcond]
    rw [hbe] at h2 ⊢
    have hhi : (((List.insertionSort sndGe (ds.rows.zip preds)).take
        ((ds.rows.zip preds).length / 2)).map Prod.fst).length =
        (ds.rows.zip preds).length / 2 := by
      simp [List.length_insertionSort, Nat.min_eq_left (Nat.div_le_self _ 2)]
    have hlo : (((List.insertionSort sndGe (ds.rows.zip preds)).drop
        ((ds.rows.zip preds).length / 2)).map Prod.fst).length =
        (ds.rows.zip preds).length - (ds.rows.zip preds).length / 2 := by
      simp [List.length_insertionSort]
    simp only at h2
    injection h2 with h2'
    constructor
    · simp only [hhi]
      exact hcond.1
    · rw [← h2']
      simp only [hlo]
      exact hcond.2
  · have hbe : buildEntry ds model scorerFn minSS preds =
        ⟨⟨scorerFn model ds.rows, ds.rows.length⟩, none⟩ := by
      simp only [buildEntry]
      rw [if_neg hcond]
    rw [hbe] at h2
    exact absurd h2 (by simp)

/-- C6: every feature reported with two segments in the value mapping of a
successful run has both segment row counts at least `min_segment_size` times
the number of rows of the sampled held-out (test) dataset. -/
theorem c6_two_segments_min_size (cfg : MEAConfig) (ctx : Context) (res : CheckResult)
    (f : String) (e : FeatureEntry) (s2 : SegmentInfo)
    (hr : run_logic cfg ctx = .ok res)
    (hf : (f, e) ∈ res.value.feature_segments)
    (h2 : e.segment2 = some s2) :
    cfg.minSegmentSize * (((ctx.test.sample cfg.nSamples cfg.randomState true).rows.length : ℕ) : ℚ) ≤
      ((e.segment1.size : ℕ) : ℚ) ∧
    cfg.minSegmentSize * (((ctx.test.sample cfg.nSamples cfg.randomState true).rows.length : ℕ) : ℚ) ≤
      ((s2.size : ℕ) : ℚ) := by
  cases hpd : preparedData cfg ctx with
  | error err =>
    unfold run_logic at hr
    rw [hpd] at hr
    exact absurd hr (by simp)
  | ok pd =>
    obtain ⟨_, hTest, _, _⟩ := preparedData_inv cfg ctx pd hpd
    rw [run_logic_eq_of_prepared cfg ctx pd hpd] at hr
    simp only [error_model_display] at hr
    injection hr with hr'
    have hv : res.value = ⟨(ctx.scorerOf cfg.userScorer).1,
        ((List.insertionSort sndGe
          (((model_error_contribution ctx.errorModelFit (fitInputOf cfg ctx pd)
            cfg.minErrorModelScore).1).filter
              fun p => decide (cfg.minFeatureContribution < p.2))).take cfg.maxFeaturesToShow).map
            fun p => (p.1, buildEntry pd.sTest ctx.model (ctx.scorerOf cfg.userScorer).2
              cfg.minSegmentSize
              (model_error_contribution ctx.errorModelFit (fitInputOf cfg ctx pd)
                cfg.minErrorModelScore).2)⟩ := by
      rw [← hr']
    rw [hv] at hf
    simp only [List.mem_map] at hf
    obtain ⟨p, hp, hpe⟩ := hf
    have he : e = buildEntry pd.sTest ctx.model (ctx.scorerOf cfg.userScorer).2
        cfg.minSegmentSize
        (model_error_contribution ctx.errorModelFit (fitInputOf cfg ctx pd)
          cfg.minErrorModelScore).2 := by
      have := congrArg Prod.snd hpe
      simpa using this.symm
    rw [he] at h2 ⊢
    rw [hTest] at h2 ⊢
    exact buildEntry_sizes (ctx.test.sample cfg.nSamples cfg.randomState true) ctx.model
      (ctx.scorerOf cfg.userScorer).2 cfg.minSegmentSize
      (model_error_contribution ctx.errorModelFit (fitInputOf cfg ctx pd)
        cfg.minErrorModelScore).2 s2 h2

/-- C6 witness inputs: a four-row regression run producing one feature with
two segments of two rows each, with `min_segment_size = 1/4`. -/
def cfgSeg : MEAConfig := ⟨3, 3/20, 1/2, 1/4, none, 50000, 5000, 42⟩

def dsSeg : Dataset :=
  ⟨["x"], [], true, [⟨[0], some 0⟩, ⟨[1], some 1⟩, ⟨[2], some 2⟩, ⟨[3], some 3⟩]⟩

def ctxSeg : Context :=
  ⟨dsSeg, dsSeg, .REGRESSION,
   ⟨fun _ => 0, fun _ => []⟩,
   fun _ => ("s", fun _ _ => 0),
   fun _ => ⟨[("x", 1)], [4, 3, 2, 1], 1⟩,
   fun q => q⟩

def resSeg : CheckResult :=
  ⟨⟨"s", [("x", ⟨⟨0, 2⟩, some ⟨0, 2⟩⟩)]⟩, some [headnote, "error distribution of x"]⟩

theorem c6_witness :
    cfgSeg.minSegmentSize *
        (((ctxSeg.test.sample cfgSeg.nSamples cfgSeg.randomState true).rows.length : ℕ) : ℚ) ≤
      (((FeatureEntry.mk ⟨0, 2⟩ (some ⟨0, 2⟩)).segment1.size : ℕ) : ℚ) ∧
    cfgSeg.minSegmentSize *
        (((ctxSeg.test.sample cfgSeg.nSamples cfgSeg.randomState true).rows.length : ℕ) : ℚ) ≤
      (((SegmentInfo.mk 0 2).size : ℕ) : ℚ) :=
  c6_two_segments_min_size cfgSeg ctxSeg resSeg "x" ⟨⟨0, 2⟩, some ⟨0, 2⟩⟩ ⟨0, 2⟩
    (by rfl) (by decide) (by rfl)

/-- C7: for identical train/test data, identical model behaviour, identical
task type, scorer resolution, fitting procedure and log, and the same
configuration (hence the same `random_state`), two runs produce the same
prepared data, the same error-model fit (importances, predictions and score),
and the same check result. -/
theorem c7_determinism (cfg : MEAConfig) (ctx1 ctx2 : Context)
    (htr : ctx1.train = ctx2.train) (hte : ctx1.test = ctx2.test)
    (hty : ctx1.taskType = ctx2.taskType) (hm : ctx1.model = ctx2.model)
    (hsc : ctx1.scorerOf = ctx2.scorerOf) (hfit : ctx1.errorModelFit = ctx2.errorModelFit)
    (hn : ctx1.negLog = ctx2.negLog) :
    preparedData cfg ctx1 = preparedData cfg ctx2 ∧
    (∀ pd, ctx1.errorModelFit (fitInputOf cfg ctx1 pd) =
      ctx2.errorModelFit (fitInputOf cfg ctx2 pd)) ∧
    run_logic cfg ctx1 = run_logic cfg ctx2 := by
  obtain ⟨t1, e1, ty1, m1, s1, f1, n1⟩ := ctx1
  obtain ⟨t2, e2, ty2, m2, s2, f2, n2⟩ := ctx2
  simp only at htr hte hty hm hsc hfit hn
  subst htr hte hty hm hsc hfit hn
  exact ⟨rfl, fun _ => rfl, rfl⟩

/-- C7 witness inputs. -/
def cfgDet : MEAConfig := ⟨3, 3/20, 1/2, 1/20, none, 100, 50, 7⟩

def ctxDet : Context :=
  ⟨⟨["x"], [], true, [⟨[0], some 0⟩]⟩,
   ⟨["x"], [], true, [⟨[1], some 1⟩]⟩,
   .REGRESSION,
   ⟨fun _ => 0, fun _ => [1]⟩,
   fun _ => ("RMSE", fun _ _ => 0),
   fun _ => ⟨[("x", 1)], [1], 1⟩,
   fun q => q⟩

theorem c7_witness :
    preparedData cfgDet ctxDet = preparedData cfgDet ctxDet ∧
    (∀ pd, ctxDet.errorModelFit (fitInputOf cfgDet ctxDet pd) =
      ctxDet.errorModelFit (fitInputOf cfgDet ctxDet pd)) ∧
    run_logic cfgDet ctxDet = run_logic cfgDet ctxDet :=
  c7_determinism cfgDet ctxDet ctxDet rfl rfl rfl rfl rfl rfl rfl

/-- The shapes the untyped `alternative_scorer` argument can take in a Python
call: absent (None), a (name, callable) tuple as documented, or a sequence
(list of pairs, or a dict iterated as its keys) of several entries. -/
inductive AltScorerArg where
  | noneArg
  | pair (name : String) (fn : ScorerFn)
  | seq (ps : List (String × ScorerFn))

/-- `ModelErrorAnalysis.__init__` (model_error_analysis.py lines 85-105).  The
body only assigns attributes; the sole computation on `alternative_scorer` is
`dict([alternative_scorer]) if alternative_scorer else None`, with Python
semantics for `dict([x])`: the single element `x` must be a sequence of
length 2, so a (name, fn) pair yields the one-entry mapping, a sequence of
exactly two pairs yields the nonsense one-entry dict keyed by the first pair,
and any other non-empty length raises ValueError; an empty sequence is falsy
and stores None.  No other validation happens at construction time. -/
def meaInit (maxFeaturesToShow : Nat)
    (minFeatureContribution minErrorModelScore minSegmentSize : ℚ)
    (alternativeScorer : AltScorerArg) (nSamples nDisplaySamples randomState : Nat) :
    Except PyErr MEAConfig :=
  match alternativeScorer with
  | .noneArg => .ok ⟨maxFeaturesToShow, minFeatureContribution, minErrorModelScore,
      minSegmentSize, none, nSamples, nDisplaySamples, randomState⟩
  | .pair n f => .ok ⟨maxFeaturesToShow, minFeatureContribution, minErrorModelScore,
      minSegmentSize, some (.mapping [(n, f)]), nSamples, nDisplaySamples, randomState⟩
  | .seq [] => .ok ⟨maxFeaturesToShow, minFeatureContribution, minErrorModelScore,
      minSegmentSize, none, nSamples, nDisplaySamples, randomState⟩
  | .seq [p, q] => .ok ⟨maxFeaturesToShow, minFeatureContribution, minErrorModelScore,
      minSegmentSize, some (.pairKeyed p q), nSamples, nDisplaySamples, randomState⟩
  | .seq _ => .error .valueError

/-- Concrete scorers used by the C8 inputs. -/
def scorerA : ScorerFn := fun _ _ => 0

def scorerB : ScorerFn := fun _ _ => 1

/-- C8 counterexample: supplying two (name, callable) pairs does NOT raise at
construction time: `dict([[p, q]])` treats the two-element sequence as a
single key-value pair and the constructor succeeds, storing a nonsense
mapping; the at-most-one validation only happens later, at run time, in
`get_single_scorer`. -/
theorem c8_counterexample :
    meaInit 3 (3/20) (1/2) (1/20) (.seq [("a", scorerA), ("b", scorerB)]) 50000 5000 42 =
      .ok ⟨3, 3/20, 1/2, 1/20, some (.pairKeyed ("a", scorerA) ("b", scorerB)),
        50000, 5000, 42⟩ := rfl

/-- C8 (amended): constructing with no alternative scorer or with a single
(name, callable) pair succeeds and stores it; the constructor performs no
scorer-multiplicity validation of its own: a sequence of exactly two pairs is
also accepted at construction (producing a malformed stored mapping), and any
other non-empty sequence fails only with the incidental ValueError of the
`dict([...])` conversion. -/
theorem c8_init_no_multiplicity_validation (mf : Nat) (a b c : ℚ) (n : String)
    (f : ScorerFn) (p q : String × ScorerFn) (ps : List (String × ScorerFn))
    (nS nD rS : Nat) (hne : ps ≠ []) (hlen : ps.length ≠ 2) :
    meaInit mf a b c .noneArg nS nD rS = .ok ⟨mf, a, b, c, none, nS, nD, rS⟩ ∧
    meaInit mf a b c (.pair n f) nS nD rS =
      .ok ⟨mf, a, b, c, some (.mapping [(n, f)]), nS, nD, rS⟩ ∧
    meaInit mf a b c (.seq [p, q]) nS nD rS =
      .ok ⟨mf, a, b, c, some (.pairKeyed p q), nS, nD, rS⟩ ∧
    meaInit mf a b c (.seq ps) nS nD rS = .error PyErr.valueError := by
  refine ⟨rfl, rfl, rfl, ?_⟩
  match ps with
  | [] => exact absurd rfl hne
  | [x] => rfl
  | [x, y] => exact absurd rfl hlen
  | x :: y :: z :: t => rfl

theorem c8_witness :
    meaInit 3 (3/20) (1/2) (1/20) .noneArg 50000 5000 42 =
      .ok ⟨3, 3/20, 1/2, 1/20, none, 50000, 5000, 42⟩ ∧
    meaInit 3 (3/20) (1/2) (1/20) (.pair "m" scorerA) 50000 5000 42 =
      .ok ⟨3, 3/20, 1/2, 1/20, some (.mapping [("m", scorerA)]), 50000, 5000, 42⟩ ∧
    meaInit 3 (3/20) (1/2) (1/20) (.seq [("a", scorerA), ("b", scorerB)]) 50000 5000 42 =
      .ok ⟨3, 3/20, 1/2, 1/20, some (.pairKeyed ("a", scorerA) ("b", scorerB)),
        50000, 5000, 42⟩ ∧
    meaInit 3 (3/20) (1/2) (1/20) (.seq [("a", scorerA)]) 50000 5000 42 =
      .error PyErr.valueError :=
  c8_init_no_multiplicity_validation 3 (3/20) (1/2) (1/20) "m" scorerA
    ("a", scorerA) ("b", scorerB) [("a", scorerA)] 50000 5000 42
    (List.cons_ne_nil _ _) (by decide)

/-- Keyword arguments forwarded unevaluated to every check constructor. -/
def Kwargs : Type := List (String × String)

/-- Modelled from the spec: a constructed check with its registered default
conditions (the check classes and the fluent `add_condition_*` registration
live outside src/); a check is recorded by class name, the forwarded kwargs,
and the names of the conditions added to it, in order. -/
structure TabCheck where
  className : String
  kwargs : Kwargs
  conditions : List String

/-- Modelled from the spec: a `Suite` (deepchecks.tabular.Suite, not under
src/) is a named ordered collection of checks. -/
structure TabSuite where
  name : String
  checks : List TabCheck

/-- Python warning categories relevant here. -/
inductive WarnCategory where
  | deprecation

/-- A warning emitted through `warnings.warn`. -/
structure PyWarning where
  category : WarnCategory
  message : String

/-- `data_integrity` (default_suites.py lines 50-65): warns nothing and
builds the Data Integrity Suite. -/
def data_integrity (kw : Kwargs) : List PyWarning × TabSuite :=
  ([], ⟨"Data Integrity Suite",
    [⟨"IsSingleValue", kw, ["add_condition_not_single_value"]⟩,
     ⟨"SpecialCharacters", kw, ["add_condition_ratio_of_special_characters_less_or_equal"]⟩,
     ⟨"MixedNulls", kw, ["add_condition_different_nulls_less_equal_to"]⟩,
     ⟨"MixedDataTypes", kw, ["add_condition_rare_type_ratio_not_in_range"]⟩,
     ⟨"StringMismatch", kw, ["add_condition_no_variants"]⟩,
     ⟨"DataDuplicates", kw, ["add_condition_ratio_less_or_equal"]⟩,
     ⟨"StringLengthOutOfBounds", kw, ["add_condition_ratio_of_outliers_less_or_equal"]⟩,
     ⟨"ConflictingLabels", kw, ["add_condition_ratio_of_conflicting_labels_less_or_equal"]⟩,
     ⟨"OutlierSampleDetection", kw, []⟩,
     ⟨"FeatureLabelCorrelation", kw, ["add_condition_feature_pps_less_than"]⟩,
     ⟨"IdentifierLabelCorrelation", kw, ["add_condition_pps_less_or_equal"]⟩]⟩)

/-- `single_dataset_integrity` (default_suites.py lines 35-47): emits a
DeprecationWarning, then returns `data_integrity(**kwargs)`. -/
def single_dataset_integrity (kw : Kwargs) : List PyWarning × TabSuite :=
  let r := data_integrity kw
  (⟨.deprecation,
    "the single_dataset_integrity suite is deprecated, use the data_integrity suite instead"⟩ :: r.1,
   r.2)

/-- `train_test_validation` (default_suites.py lines 83-101): warns nothing
and builds the Train Test Validation Suite. -/
def train_test_validation (kw : Kwargs) : List PyWarning × TabSuite :=
  ([], ⟨"Train Test Validation Suite",
    [⟨"DatasetsSizeComparison", kw, ["add_condition_test_train_size_ratio_greater_than"]⟩,
     ⟨"NewLabelTrainTest", kw, ["add_condition_new_labels_number_less_or_equal"]⟩,
     ⟨"CategoryMismatchTrainTest", kw, ["add_condition_new_category_ratio_less_or_equal"]⟩,
     ⟨"StringMismatchComparison", kw, ["add_condition_no_new_variants"]⟩,
     ⟨"DateTrainTestLeakageDuplicates", kw, ["add_condition_leakage_ratio_less_or_equal"]⟩,
     ⟨"DateTrainTestLeakageOverlap", kw, ["add_condition_leakage_ratio_less_or_equal"]⟩,
     ⟨"IndexTrainTestLeakage", kw, ["add_condition_ratio_less_or_equal"]⟩,
     ⟨"TrainTestSamplesMix", kw, ["add_condition_duplicates_ratio_less_or_equal"]⟩,
     ⟨"FeatureLabelCorrelationChange", kw,
       ["add_condition_feature_pps_difference_less_than",
        "add_condition_feature_pps_in_train_less_than"]⟩,
     ⟨"TrainTestFeatureDrift", kw, ["add_condition_drift_score_less_than"]⟩,
     ⟨"TrainTestLabelDrift", kw, ["add_condition_drift_score_less_than"]⟩,
     ⟨"WholeDatasetDrift", kw, ["add_condition_overall_drift_value_less_than"]⟩]⟩)

/-- `train_test_leakage` (default_suites.py lines 68-80): emits a
DeprecationWarning, then returns `train_test_validation(**kwargs)`. -/
def train_test_leakage (kw : Kwargs) : List PyWarning × TabSuite :=
  let r := train_test_validation kw
  (⟨.deprecation,
    "the train_test_leakage suite is deprecated, use the train_test_validation suite instead"⟩ :: r.1,
   r.2)

/-- C10: for every kwargs, `single_dataset_integrity` emits exactly one
DeprecationWarning and returns exactly the suite of `data_integrity` with the
same kwargs, and `train_test_leakage` likewise emits one DeprecationWarning
and returns exactly the suite of `train_test_validation`; the replacement
constructors themselves warn nothing. -/
theorem c10_deprecated_aliases (kw : Kwargs) :
    single_dataset_integrity kw =
      ([⟨WarnCategory.deprecation,
         "the single_dataset_integrity suite is deprecated, use the data_integrity suite instead"⟩],
       (data_integrity kw).2) ∧
    train_test_leakage kw =
      ([⟨WarnCategory.deprecation,
         "the train_test_leakage suite is deprecated, use the train_test_validation suite instead"⟩],
       (train_test_validation kw).2) ∧
    (data_integrity kw).1 = [] ∧
    (train_test_validation kw).1 = [] ∧
    (single_dataset_integrity kw).2.name = "Data Integrity Suite" ∧
    (train_test_leakage kw).2.name = "Train Test Validation Suite" :=
  ⟨rfl, rfl, rfl, rfl, rfl, rfl⟩
